import Mathlib

/-!
Verification of the SQLite access layer in `sql.py` (class `SQLiteDB`).

The Python class owns one optional connection handle and wraps the sqlite3
driver.  We embed it shallowly:

* Driver behaviour (whether a given driver call succeeds) is an explicit
  oracle record `Driver`; the layer's state is `SQLiteDB` holding the
  cached optional handle, exactly as `self.connection` does.
* A Python method that can raise `sqlite3.Error` is a Lean function
  returning `state × Except SqlError α`; `Except.error` is the exception
  propagating to the caller, `Except.ok` is a normal return.
* For the data-carrying operations (`transaction`, `insert_many`) the
  engine state `Engine` keeps the committed table contents and the
  current (possibly uncommitted) view of the single connection, plus a
  counter of driver statements issued.
* For the query-building operations (`select`, `select_one`, `update`)
  the driver is a function from the assembled SQL text and the bound
  positional parameter list to the driver's reply.
-/

namespace DBOp

/-- A `sqlite3.Error` raised by the underlying driver, carrying its text. -/
inductive SqlError where
  | sqliteError : String → SqlError
deriving DecidableEq, Repr

/-- An open sqlite3 connection handle, as produced by `sqlite3.connect`:
its identity plus the timeout and thread-affinity policy it was opened with
(`sql.py` lines 46-50). -/
structure Conn where
  id : Nat
  timeout : Nat
  check_same_thread : Bool
deriving DecidableEq, Repr

/-- The state of a `SQLiteDB` instance (`sql.py` lines 26-29): construction
parameters plus the cached optional connection handle `self.connection`. -/
structure SQLiteDB where
  db_path : String
  timeout : Nat
  check_same_thread : Bool
  connection : Option Conn
deriving DecidableEq, Repr

/-- Oracle describing how the sqlite3 driver behaves on each kind of call:
whether the liveness probe `SELECT 1` succeeds on a given handle id,
whether `sqlite3.connect` / `close` / `commit` / `rollback` /
`execute` / `executemany` raise `sqlite3.Error`, and the id a freshly
opened handle receives. -/
structure Driver where
  probeAlive : Nat → Bool
  openFails : Bool
  nextId : Nat
  closeFails : Bool
  commitFails : Bool
  rollbackFails : Bool
  execFails : Bool
  execmanyFails : Bool

/-- `SQLiteDB._is_connection_closed` (`sql.py` lines 58-64): probing a
`None` connection hits `AttributeError`, a dead handle hits
`sqlite3.Error`; both are caught and reported as closed. -/
def is_connection_closed (d : Driver) (db : SQLiteDB) : Bool :=
  match db.connection with
  | none => true
  | some c => !(d.probeAlive c.id)

/-- `SQLiteDB.connect` (`sql.py` lines 37-56): if `self.connection is None
or self._is_connection_closed()`, open a new handle with the stored
timeout and thread-affinity policy, cache and return it (re-raising the
driver error if opening fails); otherwise return the cached handle. -/
def connect (d : Driver) (db : SQLiteDB) : SQLiteDB × Except SqlError Conn :=
  match db.connection with
  | none =>
      if d.openFails then (db, Except.error (SqlError.sqliteError "connect"))
      else
        let c : Conn := ⟨d.nextId, db.timeout, db.check_same_thread⟩
        ({ db with connection := some c }, Except.ok c)
  | some c =>
      if is_connection_closed d db then
        if d.openFails then (db, Except.error (SqlError.sqliteError "connect"))
        else
          let c2 : Conn := ⟨d.nextId, db.timeout, db.check_same_thread⟩
          ({ db with connection := some c2 }, Except.ok c2)
      else (db, Except.ok c)

/-- `SQLiteDB.close` (`sql.py` lines 66-74): a no-op when no handle is
cached; otherwise closes the handle and nulls the cache.  A driver error
during `close` is caught and logged but NOT re-raised, and the cached
handle is left in place (the `self.connection = None` line sits after the
failing call inside the `try`). -/
def close (d : Driver) (db : SQLiteDB) : SQLiteDB × Except SqlError Unit :=
  match db.connection with
  | none => (db, Except.ok ())
  | some _ =>
      if d.closeFails then (db, Except.ok ())
      else ({ db with connection := none }, Except.ok ())

/-- `SQLiteDB.commit` (`sql.py` lines 150-158): no-op without a cached
handle; otherwise commits, re-raising a driver error after logging it. -/
def commit (d : Driver) (db : SQLiteDB) : SQLiteDB × Except SqlError Unit :=
  match db.connection with
  | none => (db, Except.ok ())
  | some _ =>
      if d.commitFails then (db, Except.error (SqlError.sqliteError "commit"))
      else (db, Except.ok ())

/-- `SQLiteDB.rollback` (`sql.py` lines 160-168): no-op without a cached
handle; otherwise rolls back, re-raising a driver error after logging it. -/
def rollback (d : Driver) (db : SQLiteDB) : SQLiteDB × Except SqlError Unit :=
  match db.connection with
  | none => (db, Except.ok ())
  | some _ =>
      if d.rollbackFails then (db, Except.error (SqlError.sqliteError "rollback"))
      else (db, Except.ok ())

/-- `SQLiteDB.execute` (`sql.py` lines 107-128): connects (letting a
connect error propagate), runs the statement, and re-raises a driver
error after logging the statement text. -/
def execute (d : Driver) (db : SQLiteDB) (sql : String) :
    SQLiteDB × Except SqlError Unit :=
  match connect d db with
  | (db1, Except.error e) => (db1, Except.error e)
  | (db1, Except.ok _) =>
      if d.execFails then (db1, Except.error (SqlError.sqliteError sql))
      else (db1, Except.ok ())

/-- `SQLiteDB.executemany` (`sql.py` lines 130-148): same error contract
as `execute`, applied to a batch. -/
def executemany (d : Driver) (db : SQLiteDB) (sql : String) :
    SQLiteDB × Except SqlError Unit :=
  match connect d db with
  | (db1, Except.error e) => (db1, Except.error e)
  | (db1, Except.ok _) =>
      if d.execmanyFails then (db1, Except.error (SqlError.sqliteError sql))
      else (db1, Except.ok ())

/-- `SQLiteDB.__exit__` (`sql.py` lines 81-85): on an exceptional exit
(`exc` true) it first calls `self.rollback()` — whose re-raised error
propagates out of `__exit__`, skipping the close — and then
`self.close()`; on a normal exit it only closes. -/
def exitCtx (d : Driver) (db : SQLiteDB) (exc : Bool) :
    SQLiteDB × Except SqlError Unit :=
  if exc then
    match rollback d db with
    | (db1, Except.error e) => (db1, Except.error e)
    | (db1, Except.ok _) => close d db1
  else close d db

/-! ## Engine state and the transaction scope -/

/-- A record / row: an ordered association of column names to values
(Python `dict` in insertion order; values modelled as integers). -/
abbrev Row := List (String × Int)

/-- The tables of the database: name to current row list. -/
abbrev TableMap := List (String × List Row)

/-- Rows of table `t` in `m` (missing table reads as empty). -/
def getTable : TableMap → String → List Row
  | [], _ => []
  | (n, rs) :: rest, t => if n = t then rs else getTable rest t

/-- Replace (or create) table `t` with row list `rows`. -/
def setTable : TableMap → String → List Row → TableMap
  | [], t, rows => [(t, rows)]
  | (n, rs) :: rest, t, rows =>
      if n = t then (t, rows) :: rest else (n, rs) :: setTable rest t rows

/-- The engine state seen through the single connection: `committed` is
what the database file holds, `current` is the connection's view
including uncommitted statements, and `calls` counts driver statements
issued (so that "no SQL was executed" is expressible). -/
structure Engine where
  committed : TableMap
  current : TableMap
  calls : Nat
deriving DecidableEq, Repr

/-- `count(table)` observed through this connection (`sql.py` lines
394-417 run `SELECT COUNT(*)` on the same connection, so uncommitted
rows are visible). -/
def countTable (e : Engine) (t : String) : Nat :=
  (getTable e.current t).length

/-- `conn.commit()`: on success the current view becomes durable; on
failure the driver raises and nothing changes. -/
def engCommit (e : Engine) (ok : Bool) : Engine × Except SqlError Unit :=
  if ok then ({ e with committed := e.current, calls := e.calls + 1 }, Except.ok ())
  else ({ e with calls := e.calls + 1 }, Except.error (SqlError.sqliteError "commit"))

/-- `conn.rollback()`: on success the current view is reset to the
committed state; on failure the driver raises and the uncommitted
changes stay in place. -/
def engRollback (e : Engine) (ok : Bool) : Engine × Except SqlError Unit :=
  if ok then ({ e with current := e.committed, calls := e.calls + 1 }, Except.ok ())
  else ({ e with calls := e.calls + 1 }, Except.error (SqlError.sqliteError "rollback"))

/-- `SQLiteDB.transaction` (`sql.py` lines 87-105): connect, run the
body, `conn.commit()` on normal completion; on any exception (from the
body or from the commit) `conn.rollback()` and re-raise — a failing
rollback raises its own error instead, superseding the original.
`connectOk`, `commitOk`, `rollbackOk` are the driver oracle for the
three scope-owned calls; the body is any state transformer that may
raise. -/
def transaction (connectOk commitOk rollbackOk : Bool)
    (body : Engine → Engine × Except SqlError Unit) (e : Engine) :
    Engine × Except SqlError Unit :=
  if !connectOk then (e, Except.error (SqlError.sqliteError "connect"))
  else
    match body e with
    | (e1, Except.ok _) =>
        match engCommit e1 commitOk with
        | (e2, Except.ok _) => (e2, Except.ok ())
        | (e2, Except.error err) =>
            match engRollback e2 rollbackOk with
            | (e3, Except.ok _) => (e3, Except.error err)
            | (e3, Except.error rerr) => (e3, Except.error rerr)
    | (e1, Except.error err) =>
        match engRollback e1 rollbackOk with
        | (e2, Except.ok _) => (e2, Except.error err)
        | (e2, Except.error rerr) => (e2, Except.error rerr)

/-- `conn.executemany` on the INSERT built by `insert_many` (`sql.py`
lines 265-274): appends one row per parameter tuple to the table's
current view.  `failAt = some k` means the driver raises on the `k`-th
parameter tuple, leaving the first `k` rows applied (uncommitted);
`none` means the whole batch succeeds. -/
def executemanyInsert (t : String) (rows : List Row) (failAt : Option Nat)
    (e : Engine) : Engine × Except SqlError Unit :=
  match failAt with
  | none =>
      ({ e with current := setTable e.current t (getTable e.current t ++ rows),
                calls := e.calls + 1 }, Except.ok ())
  | some k =>
      ({ e with current := setTable e.current t (getTable e.current t ++ rows.take k),
                calls := e.calls + 1 },
        Except.error (SqlError.sqliteError "executemany"))

/-- Binding record `r`'s values to the placeholders named after `cols`
(`insert_many` derives the column list from the FIRST record and binds
each record's value tuple to it). -/
def rebindRow (cols : List String) (r : Row) : Row :=
  cols.zip (r.map Prod.snd)

/-- `SQLiteDB.insert_many` (`sql.py` lines 247-280): empty input returns
`true` immediately; otherwise the column list comes from the first
record, every record's values are bound to it, the batch runs inside
`transaction`, and any `sqlite3.Error` is caught and turned into a
`false` return. -/
def insert_many (failAt : Option Nat) (connectOk commitOk rollbackOk : Bool)
    (t : String) (data_list : List Row) (e : Engine) : Engine × Bool :=
  if data_list.isEmpty then (e, true)
  else
    let cols := (data_list.headD []).map Prod.fst
    let params_list := data_list.map (rebindRow cols)
    match transaction connectOk commitOk rollbackOk
        (executemanyInsert t params_list failAt) e with
    | (e1, Except.ok _) => (e1, true)
    | (e1, Except.error _) => (e1, false)

/-! ## Query-building operations: select, select_one, update -/

/-- Driver oracle for the query-level operations: `runQuery` is
`self.execute(sql, params)` followed by `cursor.fetchall()`, `runChange`
is `self.execute(sql, params)` followed by reading `cursor.rowcount`;
each is a function of the assembled SQL text and the bound positional
parameter list.  `commitFails` says whether the `self.commit()` inside
`update` raises. -/
structure QueryDriver where
  runQuery : String → List Int → Except SqlError (List Row)
  runChange : String → List Int → Except SqlError Int
  commitFails : Bool

/-- The SQL text assembled by `SQLiteDB.select` (`sql.py` lines 301-311):
`SELECT {columns} FROM {table}` followed by optional WHERE / ORDER BY /
LIMIT / OFFSET clauses.  Python truthiness: an empty string, `None`, or a
zero limit/offset appends nothing. -/
def selectSql (table columns : String) (whereClause : Option String)
    (orderBy : Option String) (limit offset : Option Int) : String :=
  let sql := "SELECT " ++ columns ++ " FROM " ++ table
  let sql := match whereClause with
    | some w => if w.isEmpty then sql else sql ++ " WHERE " ++ w
    | none => sql
  let sql := match orderBy with
    | some ob => if ob.isEmpty then sql else sql ++ " ORDER BY " ++ ob
    | none => sql
  let sql := match limit with
    | some l => if l = 0 then sql else sql ++ " LIMIT " ++ toString l
    | none => sql
  let sql := match offset with
    | some o => if o = 0 then sql else sql ++ " OFFSET " ++ toString o
    | none => sql
  sql

/-- The parameter tuple actually bound by `execute` (`sql.py` lines
120-123): a missing or empty tuple binds nothing. -/
def boundParams (params : Option (List Int)) : List Int :=
  match params with
  | some ps => if ps.isEmpty then [] else ps
  | none => []

/-- `SQLiteDB.select` (`sql.py` lines 282-319): assemble the SQL, execute
with the bound parameters, `fetchall`; a `sqlite3.Error` is caught,
logged and swallowed, returning the empty list. -/
def select (q : QueryDriver) (table columns : String)
    (whereClause : Option String) (params : Option (List Int))
    (orderBy : Option String) (limit offset : Option Int) : List Row :=
  match q.runQuery (selectSql table columns whereClause orderBy limit offset)
      (boundParams params) with
  | Except.ok rows => rows
  | Except.error _ => []

/-- `SQLiteDB.select_one` (`sql.py` lines 321-336): `select` with
`limit=1`; `results[0] if results else None`. -/
def select_one (q : QueryDriver) (table columns : String)
    (whereClause : Option String) (params : Option (List Int)) : Option Row :=
  let results := select q table columns whereClause params none (some 1) none
  results.head?

/-- The SQL text assembled by `SQLiteDB.update` (`sql.py` lines 352-354):
a SET clause of `key = ?` pairs from the record's keys in mapping order. -/
def updateSql (table : String) (data : Row) (whereClause : String) : String :=
  let setClause := String.intercalate ", " (data.map (fun kv => kv.1 ++ " = ?"))
  "UPDATE " ++ table ++ " SET " ++ setClause ++ " WHERE " ++ whereClause

/-- The combined positional parameter list assembled by `SQLiteDB.update`
(`sql.py` lines 356-359): `params = list(data.values())`, extended by
`where_params` when that tuple is truthy. -/
def updateParams (data : Row) (whereParams : Option (List Int)) : List Int :=
  match whereParams with
  | some ps => if ps.isEmpty then data.map Prod.snd else data.map Prod.snd ++ ps
  | none => data.map Prod.snd

/-- `SQLiteDB.update` (`sql.py` lines 338-368): bind the combined
parameter list to the generated UPDATE statement, execute, commit, and
return `cursor.rowcount`; any `sqlite3.Error` (from execute or commit)
is caught and `0` is returned. -/
def update (q : QueryDriver) (table : String) (data : Row)
    (whereClause : String) (whereParams : Option (List Int)) : Int :=
  match q.runChange (updateSql table data whereClause)
      (updateParams data whereParams) with
  | Except.error _ => 0
  | Except.ok n => if q.commitFails then 0 else n

/-! ## Helper lemmas -/

theorem getTable_setTable (m : TableMap) (t : String) (rows : List Row) :
    getTable (setTable m t rows) t = rows := by
  induction m with
  | nil => simp [setTable, getTable]
  | cons hd tl ih =>
      obtain ⟨n, rs⟩ := hd
      by_cases h : n = t
      · simp [setTable, getTable, h]
      · simp [setTable, getTable, h, ih]

theorem zip_fst_snd (r : Row) : (r.map Prod.fst).zip (r.map Prod.snd) = r := by
  induction r with
  | nil => rfl
  | cons a tl ih => simp [List.zip_cons_cons, ih]

theorem rebindRow_eq_self (cols : List String) (r : Row)
    (h : r.map Prod.fst = cols) : rebindRow cols r = r := by
  subst h
  simpa [rebindRow] using zip_fst_snd r

theorem map_rebindRow_eq_self (cols : List String) (dl : List Row)
    (h : ∀ r ∈ dl, r.map Prod.fst = cols) : dl.map (rebindRow cols) = dl := by
  induction dl with
  | nil => rfl
  | cons a tl ih =>
      simp only [List.map_cons, rebindRow_eq_self cols a (h a (by simp))]
      rw [ih]
      intro r hr
      exact h r (by simp [hr])

/-! ## Concrete instances used by witnesses and counterexamples -/

/-- A driver on which every call succeeds. -/
def driverOk : Driver :=
  { probeAlive := fun _ => true, openFails := false, nextId := 1, closeFails := false,
    commitFails := false, rollbackFails := false, execFails := false,
    execmanyFails := false }

/-- A driver whose `close` call raises `sqlite3.Error`. -/
def driverCloseFails : Driver :=
  { driverOk with closeFails := true }

/-- A driver whose `rollback` call raises `sqlite3.Error`. -/
def driverRollbackFails : Driver :=
  { driverOk with rollbackFails := true }

/-- A driver on which every call raises `sqlite3.Error`. -/
def driverAllFail : Driver :=
  { probeAlive := fun _ => true, openFails := true, nextId := 1, closeFails := true,
    commitFails := true, rollbackFails := true, execFails := true,
    execmanyFails := true }

/-- A layer instance with an open cached handle. -/
def dbOpenExample : SQLiteDB :=
  { db_path := "example.db", timeout := 30, check_same_thread := false,
    connection := some ⟨0, 30, false⟩ }

/-- A layer instance with no cached handle. -/
def dbNoConn : SQLiteDB :=
  { db_path := "example.db", timeout := 30, check_same_thread := false,
    connection := none }

/-! ## Claim theorems -/

/-- C1: for every body run inside `transaction`, if an exception
propagates out of the block then the scope first performs a rollback
(resetting the current view to the committed state) and then re-raises
the original exception unchanged, provided the rollback itself
succeeds. -/
theorem transaction_rolls_back_and_reraises (commitOk : Bool)
    (body : Engine → Engine × Except SqlError Unit) (e e1 : Engine) (err : SqlError)
    (hb : body e = (e1, Except.error err)) :
    transaction true commitOk true body e =
      ({ e1 with current := e1.committed, calls := e1.calls + 1 },
        Except.error err) := by
  simp [transaction, hb, engRollback]

/-- Witness for C1 at a concrete failing body and engine state. -/
theorem transaction_rolls_back_and_reraises_witness :
    transaction true true true
        (fun e => ({ e with current := setTable e.current "t" [[("a", 1)]] },
                    Except.error (SqlError.sqliteError "boom")))
        ⟨[("t", [])], [("t", [])], 0⟩ =
      (⟨[("t", [])], [("t", [])], 1⟩, Except.error (SqlError.sqliteError "boom")) :=
  transaction_rolls_back_and_reraises true _ ⟨[("t", [])], [("t", [])], 0⟩
    ⟨[("t", [])], [("t", [[("a", 1)]])], 0⟩ (SqlError.sqliteError "boom") rfl

/-- C2 counterexample: `close` does NOT re-raise the driver error.  On a
layer with an open handle and a driver whose close call raises, `close`
returns normally (and even leaves the cached handle in place). -/
theorem close_swallows_driver_error :
    driverCloseFails.closeFails = true ∧
    dbOpenExample.connection.isSome = true ∧
    close driverCloseFails dbOpenExample = (dbOpenExample, Except.ok ()) :=
  ⟨rfl, rfl, rfl⟩

/-- C2 amended: connect, execute, executemany, commit and rollback log
and re-raise the underlying driver error, but `close` catches the driver
error and returns normally (it never propagates). -/
theorem propagating_tier (d : Driver) (db : SQLiteDB) :
    (db.connection = none → d.openFails = true →
        (connect d db).2 = Except.error (SqlError.sqliteError "connect")) ∧
    (∀ c sql, db.connection = some c → d.probeAlive c.id = true → d.execFails = true →
        (execute d db sql).2 = Except.error (SqlError.sqliteError sql)) ∧
    (∀ c sql, db.connection = some c → d.probeAlive c.id = true →
        d.execmanyFails = true →
        (executemany d db sql).2 = Except.error (SqlError.sqliteError sql)) ∧
    (∀ c, db.connection = some c → d.commitFails = true →
        (commit d db).2 = Except.error (SqlError.sqliteError "commit")) ∧
    (∀ c, db.connection = some c → d.rollbackFails = true →
        (rollback d db).2 = Except.error (SqlError.sqliteError "rollback")) ∧
    (close d db).2 = Except.ok () := by
  refine ⟨?_, ?_, ?_, ?_, ?_, ?_⟩
  · intro h1 h2
    simp [connect, h1, h2]
  · intro c sql h1 h2 h3
    simp [execute, connect, is_connection_closed, h1, h2, h3]
  · intro c sql h1 h2 h3
    simp [executemany, connect, is_connection_closed, h1, h2, h3]
  · intro c h1 h2
    simp [commit, h1, h2]
  · intro c h1 h2
    simp [rollback, h1, h2]
  · rcases hdb : db.connection with _ | c
    · simp [close, hdb]
    · cases hcl : d.closeFails <;> simp [close, hdb, hcl]

/-- Witness for C2 (amended) at a concrete all-failing driver: execute and
commit propagate, close swallows. -/
theorem propagating_tier_witness :
    (execute driverAllFail dbOpenExample "INSERT").2 =
        Except.error (SqlError.sqliteError "INSERT") ∧
    (commit driverAllFail dbOpenExample).2 =
        Except.error (SqlError.sqliteError "commit") ∧
    (close driverAllFail dbOpenExample).2 = Except.ok () :=
  ⟨(propagating_tier driverAllFail dbOpenExample).2.1 ⟨0, 30, false⟩ "INSERT" rfl rfl rfl,
   (propagating_tier driverAllFail dbOpenExample).2.2.2.1 ⟨0, 30, false⟩ rfl rfl,
   (propagating_tier driverAllFail dbOpenExample).2.2.2.2.2⟩

/-- C3 counterexample: when the rollback issued after a mid-batch failure
itself fails, `insert_many` returns `false` yet a partial subset of the
batch stays visible: from an empty committed table, a 2-record batch
failing on the second record with a failing rollback leaves count = 1. -/
theorem insert_many_partial_rows_visible :
    countTable ⟨[("t", [])], [("t", [])], 0⟩ "t" = 0 ∧
    (insert_many (some 1) true true false "t" [[("a", 1)], [("a", 2)]]
        ⟨[("t", [])], [("t", [])], 0⟩).2 = false ∧
    countTable (insert_many (some 1) true true false "t" [[("a", 1)], [("a", 2)]]
        ⟨[("t", [])], [("t", [])], 0⟩).1 "t" = 1 :=
  ⟨rfl, rfl, rfl⟩

/-- C3 amended: provided the rollback issued on failure succeeds and the
connection has no uncommitted changes at call time, `insert_many` on a
non-empty uniformly-keyed batch of N records either increases
count(table) by exactly N and returns true, or leaves count(table)
unchanged and returns false. -/
theorem insert_many_atomic (failAt : Option Nat) (connectOk commitOk : Bool)
    (t : String) (dl : List Row) (e : Engine)
    (hne : dl ≠ [])
    (hu : ∀ r ∈ dl, r.map Prod.fst = (dl.headD []).map Prod.fst)
    (hpend : e.current = e.committed) :
    ((insert_many failAt connectOk commitOk true t dl e).2 = true ∧
      countTable (insert_many failAt connectOk commitOk true t dl e).1 t =
        countTable e t + dl.length) ∨
    ((insert_many failAt connectOk commitOk true t dl e).2 = false ∧
      countTable (insert_many failAt connectOk commitOk true t dl e).1 t =
        countTable e t) := by
  obtain ⟨a, rest, rfl⟩ : ∃ a rest, dl = a :: rest := by
    cases dl with
    | nil => exact absurd rfl hne
    | cons a rest => exact ⟨a, rest, rfl⟩
  have hmap : (a :: rest).map (rebindRow (((a :: rest).headD []).map Prod.fst)) =
      a :: rest := map_rebindRow_eq_self _ _ hu
  cases connectOk with
  | false =>
      right
      constructor <;> simp [insert_many, transaction]
  | true =>
      cases failAt with
      | none =>
          cases commitOk with
          | true =>
              left
              constructor <;>
                simp [insert_many, hmap, transaction, executemanyInsert, engCommit,
                      countTable, getTable_setTable]
          | false =>
              right
              constructor <;>
                simp [insert_many, hmap, transaction, executemanyInsert, engCommit,
                      engRollback, countTable, hpend]
      | some k =>
          right
          constructor <;>
            simp [insert_many, hmap, transaction, executemanyInsert, engRollback,
                  countTable, hpend]

/-- Witness for C3 (amended) at a concrete successful batch: two records
into an empty table give count 2 and a true return. -/
theorem insert_many_atomic_witness :
    ((insert_many none true true true "t" [[("a", 1)], [("a", 2)]]
        ⟨[("t", [])], [("t", [])], 0⟩).2 = true ∧
      countTable (insert_many none true true true "t" [[("a", 1)], [("a", 2)]]
        ⟨[("t", [])], [("t", [])], 0⟩).1 "t" =
        countTable ⟨[("t", [])], [("t", [])], 0⟩ "t" + 2) ∨
    ((insert_many none true true true "t" [[("a", 1)], [("a", 2)]]
        ⟨[("t", [])], [("t", [])], 0⟩).2 = false ∧
      countTable (insert_many none true true true "t" [[("a", 1)], [("a", 2)]]
        ⟨[("t", [])], [("t", [])], 0⟩).1 "t" =
        countTable ⟨[("t", [])], [("t", [])], 0⟩ "t") :=
  insert_many_atomic none true true "t" [[("a", 1)], [("a", 2)]]
    ⟨[("t", [])], [("t", [])], 0⟩ (by decide) (by decide) rfl

/-- C4 counterexample: on an exceptional exit whose rollback fails, the
managed-resource exit re-raises the rollback error BEFORE reaching
`close`, so the cached handle is NOT closed — it is leaked. -/
theorem exit_leaks_handle :
    driverRollbackFails.rollbackFails = true ∧
    (exitCtx driverRollbackFails dbOpenExample true).1.connection =
      some ⟨0, 30, false⟩ ∧
    (exitCtx driverRollbackFails dbOpenExample true).2 =
      Except.error (SqlError.sqliteError "rollback") :=
  ⟨rfl, rfl, rfl⟩

/-- C4 amended: the managed-resource exit rolls back exactly on an
exceptional exit; the handle is then closed on a normal exit and on an
exceptional exit whose rollback succeeds (or finds no handle), but when
the rollback itself raises, the close step is skipped and the handle
stays cached. -/
theorem exit_ctx_spec (d : Driver) (db : SQLiteDB) :
    (exitCtx d db false = close d db) ∧
    (d.rollbackFails = false → exitCtx d db true = close d db) ∧
    (db.connection = none → exitCtx d db true = close d db) ∧
    (∀ c, db.connection = some c → d.rollbackFails = true →
        exitCtx d db true = (db, Except.error (SqlError.sqliteError "rollback"))) ∧
    (d.closeFails = false → (exitCtx d db false).1.connection = none) ∧
    (d.closeFails = false → d.rollbackFails = false →
        (exitCtx d db true).1.connection = none) := by
  refine ⟨rfl, ?_, ?_, ?_, ?_, ?_⟩
  · intro h
    rcases hdb : db.connection with _ | c <;> simp [exitCtx, rollback, hdb, h]
  · intro h
    simp [exitCtx, rollback, h]
  · intro c h1 h2
    simp [exitCtx, rollback, h1, h2]
  · intro h
    rcases hdb : db.connection with _ | c <;> simp [exitCtx, close, hdb, h]
  · intro h1 h2
    rcases hdb : db.connection with _ | c <;>
      simp [exitCtx, rollback, close, hdb, h1, h2]

/-- Witness for C4 (amended) at a concrete all-succeeding driver: an
exceptional exit with a succeeding rollback leaves no cached handle. -/
theorem exit_ctx_spec_witness :
    (exitCtx driverOk dbOpenExample true).1.connection = none :=
  (exit_ctx_spec driverOk dbOpenExample).2.2.2.2.2 rfl rfl

/-- C5: `close` is idempotent — on an already-closed layer it is a no-op,
a successful close nulls the cached handle, and a second close leaves the
layer exactly as a single close did. -/
theorem close_idempotent (d : Driver) (db : SQLiteDB) :
    (db.connection = none → close d db = (db, Except.ok ())) ∧
    (d.closeFails = false → (close d db).1.connection = none) ∧
    (close d (close d db).1 = close d db) := by
  refine ⟨?_, ?_, ?_⟩
  · intro h
    simp [close, h]
  · intro h
    rcases hdb : db.connection with _ | c <;> simp [close, hdb, h]
  · rcases hdb : db.connection with _ | c
    · simp [close, hdb]
    · cases hcl : d.closeFails <;> simp [close, hdb, hcl]

/-- Witness for C5 at a concrete open layer: a successful close nulls the
handle and a repeated close changes nothing. -/
theorem close_idempotent_witness :
    (close driverOk dbOpenExample).1.connection = none ∧
    close driverOk (close driverOk dbOpenExample).1 = close driverOk dbOpenExample :=
  ⟨(close_idempotent driverOk dbOpenExample).2.1 rfl,
   (close_idempotent driverOk dbOpenExample).2.2⟩

/-- C6: `connect` returns the cached handle untouched when it passes the
liveness probe, and otherwise (no cached handle, or probe failure) opens,
caches and returns a new handle carrying the caller-supplied timeout and
thread-affinity policy. -/
theorem connect_spec (d : Driver) (db : SQLiteDB) :
    (∀ c, db.connection = some c → d.probeAlive c.id = true →
        connect d db = (db, Except.ok c)) ∧
    (d.openFails = false → db.connection = none →
        connect d db =
          ({ db with connection := some ⟨d.nextId, db.timeout, db.check_same_thread⟩ },
            Except.ok ⟨d.nextId, db.timeout, db.check_same_thread⟩)) ∧
    (d.openFails = false → ∀ c, db.connection = some c → d.probeAlive c.id = false →
        connect d db =
          ({ db with connection := some ⟨d.nextId, db.timeout, db.check_same_thread⟩ },
            Except.ok ⟨d.nextId, db.timeout, db.check_same_thread⟩)) := by
  refine ⟨?_, ?_, ?_⟩
  · intro c h1 h2
    simp [connect, is_connection_closed, h1, h2]
  · intro h1 h2
    simp [connect, h1, h2]
  · intro h1 c h2 h3
    simp [connect, is_connection_closed, h1, h2, h3]

/-- Witness for C6: connecting a layer with no cached handle opens a new
one with the stored timeout and thread-affinity policy. -/
theorem connect_spec_witness :
    connect driverOk dbNoConn =
      ({ dbNoConn with connection := some ⟨1, 30, false⟩ },
        Except.ok ⟨1, 30, false⟩) :=
  (connect_spec driverOk dbNoConn).2.1 rfl rfl

/-- C7: `select_one` returns exactly the first row of `select` with limit
forced to 1 when that result is non-empty, and `none` when it is
empty. -/
theorem select_one_spec (q : QueryDriver) (t c : String) (w : Option String)
    (p : Option (List Int)) :
    (select q t c w p none (some 1) none = [] → select_one q t c w p = none) ∧
    (∀ r rs, select q t c w p none (some 1) none = r :: rs →
        select_one q t c w p = some r) := by
  constructor
  · intro h
    simp [select_one, h]
  · intro r rs h
    simp [select_one, h]

/-- Witness for C7 on a driver returning a single concrete row. -/
theorem select_one_spec_witness :
    select_one
      ⟨fun _ _ => Except.ok [[("a", 1)]], fun _ _ => Except.ok 0, false⟩
      "users" "*" none none = some [("a", 1)] :=
  (select_one_spec ⟨fun _ _ => Except.ok [[("a", 1)]], fun _ _ => Except.ok 0, false⟩
      "users" "*" none none).2 [("a", 1)] [] rfl

/-- The parameter list `update` binds is the record's values in mapping
order followed by the where-parameters in order. -/
theorem updateParams_eq (data : Row) (wps : Option (List Int)) :
    updateParams data wps = data.map Prod.snd ++ wps.getD [] := by
  rcases wps with _ | ps
  · simp [updateParams]
  · rcases ps with _ | ⟨x, xs⟩ <;> simp [updateParams]

/-- C8: `update` binds exactly the record's values in mapping order
followed by the where-parameters as the positional parameter list of the
generated UPDATE statement, returns the affected-row count on success,
and returns 0 (without raising) when the execute or the commit fails. -/
theorem update_spec (q : QueryDriver) (t : String) (data : Row) (w : String)
    (wps : Option (List Int)) :
    (∀ n, q.runChange (updateSql t data w) (data.map Prod.snd ++ wps.getD []) =
        Except.ok n → q.commitFails = false → update q t data w wps = n) ∧
    (∀ err, q.runChange (updateSql t data w) (data.map Prod.snd ++ wps.getD []) =
        Except.error err → update q t data w wps = 0) ∧
    (q.commitFails = true → update q t data w wps = 0) := by
  refine ⟨?_, ?_, ?_⟩
  · intro n h hc
    rw [← updateParams_eq] at h
    simp [update, h, hc]
  · intro err h
    rw [← updateParams_eq] at h
    simp [update, h]
  · intro hc
    rcases hrun : q.runChange (updateSql t data w) (updateParams data wps)
        with err | n <;> simp [update, hrun, hc]

/-- Witness for C8 on a driver that reports the length of the bound
parameter list as the affected-row count: one record value plus one
where-parameter gives 2. -/
theorem update_spec_witness :
    update ⟨fun _ _ => Except.ok [], fun _ ps => Except.ok (Int.ofNat ps.length), false⟩
      "users" [("age", 26)] "name = ?" (some [3]) = 2 :=
  (update_spec ⟨fun _ _ => Except.ok [], fun _ ps => Except.ok (Int.ofNat ps.length), false⟩
      "users" [("age", 26)] "name = ?" (some [3])).1 2 rfl rfl

/-- C9: `select` soft-fails — when the driver raises, the error is
swallowed and the empty list is returned, exactly as when the query
succeeds with no matching rows, so the two cases are indistinguishable
from the return value. -/
theorem select_soft_fail (q : QueryDriver) (t c : String) (w : Option String)
    (p : Option (List Int)) (ob : Option String) (lim off : Option Int) :
    (∀ err, q.runQuery (selectSql t c w ob lim off) (boundParams p) =
        Except.error err → select q t c w p ob lim off = []) ∧
    (q.runQuery (selectSql t c w ob lim off) (boundParams p) = Except.ok [] →
        select q t c w p ob lim off = []) := by
  constructor
  · intro err h
    simp [select, h]
  · intro h
    simp [select, h]

/-- Witness for C9 on a driver whose every query raises: select returns
the empty list. -/
theorem select_soft_fail_witness :
    select ⟨fun _ _ => Except.error (SqlError.sqliteError "no such table"),
        fun _ _ => Except.ok 0, false⟩ "users" "*" none none none none none = [] :=
  (select_soft_fail ⟨fun _ _ => Except.error (SqlError.sqliteError "no such table"),
      fun _ _ => Except.ok 0, false⟩ "users" "*" none none none none none).1
    (SqlError.sqliteError "no such table") rfl

/-- C10: `insert_many` on an empty record list returns `true` immediately
and leaves the engine state — committed tables, current view, and the
count of driver statements issued — untouched, whatever the driver
oracles would have done. -/
theorem insert_many_empty (failAt : Option Nat)
    (connectOk commitOk rollbackOk : Bool) (t : String) (e : Engine) :
    insert_many failAt connectOk commitOk rollbackOk t [] e = (e, true) := rfl

end DBOp
